import Mathlib

/-!
Verification development for the F1 data-aggregation script `f1_api_call.py`.

The script is embedded shallowly: JSON payloads returned by the remote API
become an inductive `Json` type, Python subscripting that can raise becomes
`Except PyErr`, each endpoint fetcher becomes a Lean function over a
`Response` (HTTP status plus parsed body), and the aggregation loop in
`main` becomes `processResult` / `processRound` / `runMain` over an
`Oracle` that supplies the response for every request the script can issue.
-/

/-- Python exception values that the scripts subscripting and lookups can raise. -/
inductive PyErr where
  | keyError : String → PyErr
  | indexError : PyErr
  | typeError : PyErr
deriving DecidableEq

/- Parsed JSON values, as returned by response.json().  Ergast scalars are
all strings, so string leaves suffice; arrays and objects are mutual so that
all recursion over them is structural and reduces in the kernel. -/
mutual
inductive Json where
  | str : String → Json
  | arr : JsonList → Json
  | obj : JsonPairs → Json
inductive JsonList where
  | nil : JsonList
  | cons : Json → JsonList → JsonList
inductive JsonPairs where
  | nil : JsonPairs
  | cons : String → Json → JsonPairs → JsonPairs
end

/-- Convert an embedded JSON array to a Lean list of its elements. -/
def JsonList.toList : JsonList → List Json
  | .nil => []
  | .cons x xs => x :: xs.toList

/-- Convert an embedded JSON object to its key-value association list. -/
def JsonPairs.toList : JsonPairs → List (String × Json)
  | .nil => []
  | .cons k v rest => (k, v) :: rest.toList

/-- Build an embedded JSON array from a Lean list. -/
def jlOf : List Json → JsonList
  | [] => .nil
  | x :: xs => .cons x (jlOf xs)

/-- Build an embedded JSON object from an association list. -/
def jpOf : List (String × Json) → JsonPairs
  | [] => .nil
  | (k, v) :: rest => .cons k v (jpOf rest)

/-- JSON array literal helper. -/
def jarr (xs : List Json) : Json := .arr (jlOf xs)

/-- JSON object literal helper. -/
def jobj (kvs : List (String × Json)) : Json := .obj (jpOf kvs)

/- Structural boolean equality on JSON values (Python == on parsed JSON).
Python compares dicts without regard to insertion order; Ergast object keys
are fixed literals and all comparisons the script performs are on string
leaves, where structural equality and Python equality agree. -/
mutual
def jeq : Json → Json → Bool
  | .str s, .str t => s == t
  | .arr xs, .arr ys => jeqL xs ys
  | .obj xs, .obj ys => jeqP xs ys
  | _, _ => false
def jeqL : JsonList → JsonList → Bool
  | .nil, .nil => true
  | .cons x xs, .cons y ys => jeq x y && jeqL xs ys
  | _, _ => false
def jeqP : JsonPairs → JsonPairs → Bool
  | .nil, .nil => true
  | .cons k v rest, .cons l w rest2 => k == l && jeq v w && jeqP rest rest2
  | _, _ => false
end

mutual
theorem jeq_eq : ∀ (a b : Json), jeq a b = true ↔ a = b
  | .str s, .str t => by simp [jeq]
  | .str s, .arr ys => by simp [jeq]
  | .str s, .obj ys => by simp [jeq]
  | .arr xs, .str t => by simp [jeq]
  | .arr xs, .arr ys => by simp [jeq, jeqL_eq xs ys]
  | .arr xs, .obj ys => by simp [jeq]
  | .obj xs, .str t => by simp [jeq]
  | .obj xs, .arr ys => by simp [jeq]
  | .obj xs, .obj ys => by simp [jeq, jeqP_eq xs ys]
theorem jeqL_eq : ∀ (a b : JsonList), jeqL a b = true ↔ a = b
  | .nil, .nil => by simp [jeqL]
  | .nil, .cons y ys => by simp [jeqL]
  | .cons x xs, .nil => by simp [jeqL]
  | .cons x xs, .cons y ys => by
      simp [jeqL, Bool.and_eq_true, jeq_eq x y, jeqL_eq xs ys]
theorem jeqP_eq : ∀ (a b : JsonPairs), jeqP a b = true ↔ a = b
  | .nil, .nil => by simp [jeqP]
  | .nil, .cons l w r => by simp [jeqP]
  | .cons k v r, .nil => by simp [jeqP]
  | .cons k v r, .cons l w r2 => by
      simp [jeqP, Bool.and_eq_true, jeq_eq v w, jeqP_eq r r2, and_assoc]
end

instance : DecidableEq Json := fun a b => decidable_of_iff (jeq a b = true) (jeq_eq a b)

instance {e a : Type} [DecidableEq e] [DecidableEq a] : DecidableEq (Except e a) := fun x y =>
  match x, y with
  | .error u, .error v =>
      decidable_of_iff (u = v) (by constructor <;> (intro h; first | rw [h] | injection h))
  | .ok u, .ok v =>
      decidable_of_iff (u = v) (by constructor <;> (intro h; first | rw [h] | injection h))
  | .error _, .ok _ => isFalse (by intro h; injection h)
  | .ok _, .error _ => isFalse (by intro h; injection h)

/-- Bind for fallible Python expressions: propagate a raised exception,
otherwise continue with the value.  Written as an explicit match so that
proofs can invert it with `eb_ok`. -/
def eb {α β : Type} (x : Except PyErr α) (f : α → Except PyErr β) : Except PyErr β :=
  match x with
  | .error e => .error e
  | .ok a => f a

theorem eb_ok {α β : Type} {x : Except PyErr α} {f : α → Except PyErr β} {b : β} :
    eb x f = .ok b ↔ ∃ a, x = .ok a ∧ f a = .ok b := by
  cases x with
  | error e => simp [eb]
  | ok a => simp [eb]

theorem eb_err {α β : Type} {x : Except PyErr α} {f : α → Except PyErr β} {e : PyErr}
    (h : x = .error e) : eb x f = .error e := by
  rw [h]; rfl

/-- Fallible map over a list (a Python list comprehension whose body may raise). -/
def mapE {α β : Type} (f : α → Except PyErr β) : List α → Except PyErr (List β)
  | [] => .ok []
  | a :: as => eb (f a) fun b => eb (mapE f as) fun bs => .ok (b :: bs)

theorem mapE_ok_length {α β : Type} (f : α → Except PyErr β) :
    ∀ {l : List α} {bs : List β}, mapE f l = .ok bs → bs.length = l.length := by
  intro l
  induction l with
  | nil => intro bs h; simp [mapE] at h; simp [← h]
  | cons a as ih =>
      intro bs h
      simp only [mapE, eb_ok] at h
      obtain ⟨b, _, bs2, hbs2, hcons⟩ := h
      simp only [Except.ok.injEq] at hcons
      subst hcons
      simp [ih hbs2]

theorem mapE_ok_get {α β : Type} (f : α → Except PyErr β) :
    ∀ {l : List α} {bs : List β}, mapE f l = .ok bs →
      ∀ (i : Nat) (h1 : i < l.length) (h2 : i < bs.length),
        f (l.get ⟨i, h1⟩) = .ok (bs.get ⟨i, h2⟩) := by
  intro l
  induction l with
  | nil => intro bs h i h1 h2; exact absurd h1 (by simp)
  | cons a as ih =>
      intro bs h i h1 h2
      simp only [mapE, eb_ok] at h
      obtain ⟨b, hb, bs2, hbs2, hcons⟩ := h
      simp only [Except.ok.injEq] at hcons
      subst hcons
      cases i with
      | zero => simpa using hb
      | succ j => exact ih hbs2 j (by simpa using h1) (by simpa using h2)

/-- Python len() on a JSON value (characters of a string, elements of a
list, keys of a dict). -/
def pyLen : Json → Nat
  | .str s => s.length
  | .arr xs => xs.toList.length
  | .obj kvs => kvs.toList.length

/-- Python truthiness of a JSON value: empty strings, lists and dicts are
falsy, everything else here is truthy. -/
def pyTruthy (j : Json) : Bool := pyLen j != 0

/-- Python iteration over a JSON value: elements of a list, keys of a dict,
one-character strings of a string. -/
def pyIter : Json → List Json
  | .str s => s.toList.map (fun c => Json.str (String.mk [c]))
  | .arr xs => xs.toList
  | .obj kvs => kvs.toList.map (fun kv => Json.str kv.1)

/-- Python subscripting with a string key: a KeyError on a dict without the
key, a TypeError on a list or string. -/
def Json.getKey : Json → String → Except PyErr Json
  | .obj kvs, k =>
      match kvs.toList.find? (fun kv => kv.1 == k) with
      | some kv => .ok kv.2
      | none => .error (.keyError k)
  | .str _, _ => .error .typeError
  | .arr _, _ => .error .typeError

/-- Python subscripting with an integer index: list indexing with an
IndexError when out of range, one-character strings for string indexing, a
KeyError for a dict (JSON dict keys are strings, never integers). -/
def Json.getIdx : Json → Nat → Except PyErr Json
  | .arr xs, i =>
      match xs.toList.get? i with
      | some v => .ok v
      | none => .error .indexError
  | .str s, i =>
      match s.toList.get? i with
      | some c => .ok (.str (String.mk [c]))
      | none => .error .indexError
  | .obj _, i => .error (.keyError (toString i))

/-- Character-list helper: pat is an initial segment of s. -/
def chLeads : List Char → List Char → Bool
  | [], _ => true
  | _ :: _, [] => false
  | a :: as, b :: bs => a == b && chLeads as bs

/-- Character-list helper: pat occurs contiguously inside s. -/
def chWithin (pat : List Char) (s : List Char) : Bool :=
  chLeads pat s ||
    match s with
    | [] => false
    | _ :: t => chWithin pat t

/-- The Python `in` operator with a string literal on the left: key
membership for a dict, element membership for a list, substring for a string. -/
def pyContains (j : Json) (k : String) : Bool :=
  match j with
  | .obj kvs => kvs.toList.any (fun kv => kv.1 == k)
  | .arr xs => xs.toList.any (fun e => jeq e (.str k))
  | .str s => chWithin k.toList s.toList

/-- Lookup in an association list with string keys (a Python dict built by
the script itself). -/
def qlook (l : List (String × Json)) (k : String) : Option Json :=
  (l.find? (fun kv => kv.1 == k)).map Prod.snd

/-- Python dict.get with a default, for dicts built by the script. -/
def qget (l : List (String × Json)) (k : String) (dflt : Json) : Json :=
  (qlook l k).getD dflt

/-- Python dict.get with a default on a raw JSON value (returns the default
on a non-dict, a case the script never reaches because a successful string
subscript has already forced the value to be a dict). -/
def pyGetD (j : Json) (k : String) (dflt : Json) : Json :=
  match j with
  | .obj kvs =>
      match kvs.toList.find? (fun kv => kv.1 == k) with
      | some kv => kv.2
      | none => dflt
  | _ => dflt

/-- Lookup in a dict keyed by JSON values (the qualifying map the script
builds, keyed by the raw driverId value). -/
def dictGet (d : List (Json × List (String × Json))) (k : Json)
    (dflt : List (String × Json)) : List (String × Json) :=
  match d.find? (fun kv => jeq kv.1 k) with
  | some kv => kv.2
  | none => dflt

/-- Python dict assignment d[k] = v: replace in place when the key exists,
append otherwise (insertion order preserved, as in Python). -/
def dictSet (d : List (Json × List (String × Json))) (k : Json)
    (v : List (String × Json)) : List (Json × List (String × Json)) :=
  if d.any (fun kv => jeq kv.1 k) then
    d.map (fun kv => if jeq kv.1 k then (k, v) else kv)
  else d ++ [(k, v)]

/- Python str() of a JSON value as used in f-strings.  Faithful on string
leaves (the only case the Ergast payloads exercise); for lists and dicts the
quoting of Python repr is approximated by a plain bracketed rendering. -/
mutual
def pyStr : Json → String
  | .str s => s
  | .arr xs => "[" ++ pyStrL xs ++ "]"
  | .obj kvs => "\x7b" ++ pyStrP kvs ++ "\x7d"
def pyStrL : JsonList → String
  | .nil => ""
  | .cons x .nil => pyStr x
  | .cons x (.cons y ys) => pyStr x ++ ", " ++ pyStrL (.cons y ys)
def pyStrP : JsonPairs → String
  | .nil => ""
  | .cons k v .nil => k ++ ": " ++ pyStr v
  | .cons k v (.cons l w r) => k ++ ": " ++ pyStr v ++ ", " ++ pyStrP (.cons l w r)
end

/-- An HTTP response as the script sees it: the transport status code and
the parsed JSON body. -/
structure Response where
  status : Nat
  body : Json
deriving DecidableEq

/-- The remote API, modelled as a total map from every request the script
can issue to the response the transport returns for it. -/
structure Oracle where
  race : Nat → Nat → Response
  driverStandings : Nat → Nat → Response
  raceResults : Nat → Nat → Response
  qualifying : Nat → Nat → Response
  pitstops : Nat → Nat → Json → Response

/-- One network request issued by the aggregation loop, recorded so that
theorems can speak about which fetches a round performs. -/
inductive FetchCall where
  | race : Nat → Nat → FetchCall
  | results : Nat → Nat → FetchCall
  | standings : Nat → Nat → FetchCall
  | qualifying : Nat → Nat → FetchCall
  | pitstops : Nat → Nat → Json → FetchCall
deriving DecidableEq

/-- fetch_race_data: on HTTP 200 unwrap MRData.RaceTable.Races and return
its first element when the list is truthy, None otherwise; on a transport
failure return None. -/
def fetch_race_data (resp : Response) : Except PyErr (Option Json) :=
  if resp.status == 200 then
    eb (resp.body.getKey "MRData") fun mrdata =>
    eb (mrdata.getKey "RaceTable") fun rt =>
    eb (rt.getKey "Races") fun races =>
    if pyTruthy races then
      eb (races.getIdx 0) fun r0 => .ok (some r0)
    else .ok none
  else .ok none

/-- fetch_driver_standings: on HTTP 200 unwrap
MRData.StandingsTable.StandingsLists and return element 0 subscripted at
DriverStandings when the list is truthy and nonempty; an empty Python list
otherwise. -/
def fetch_driver_standings (resp : Response) : Except PyErr Json :=
  if resp.status == 200 then
    eb (resp.body.getKey "MRData") fun mrdata =>
    eb (mrdata.getKey "StandingsTable") fun st =>
    eb (st.getKey "StandingsLists") fun data =>
    if pyTruthy data && decide (0 < pyLen data) then
      eb (data.getIdx 0) fun d0 => d0.getKey "DriverStandings"
    else .ok (jarr [])
  else .ok (jarr [])

/-- fetch_race_results: on HTTP 200 unwrap MRData.RaceTable.Races and
return element 0 subscripted at Results when the list is truthy; an empty
Python list otherwise. -/
def fetch_race_results (resp : Response) : Except PyErr Json :=
  if resp.status == 200 then
    eb (resp.body.getKey "MRData") fun mrdata =>
    eb (mrdata.getKey "RaceTable") fun rt =>
    eb (rt.getKey "Races") fun race_table =>
    if pyTruthy race_table then
      eb (race_table.getIdx 0) fun r0 => r0.getKey "Results"
    else .ok (jarr [])
  else .ok (jarr [])

/-- The loop body of fetch_qualifying_results: from one raw qualifying
entry produce the driverId key and the four-field dict the script stores
for that driver, defaulting each of Q1, Q2, Q3 to the string N/A when the
entry lacks that key. -/
def buildQualEntry (entry : Json) : Except PyErr (Json × List (String × Json)) :=
  eb (entry.getKey "Driver") fun driver =>
  eb (driver.getKey "driverId") fun driver_id =>
  eb (entry.getKey "position") fun pos =>
  .ok (driver_id,
    [("position", pos),
     ("Q1", pyGetD entry "Q1" (Json.str "N/A")),
     ("Q2", pyGetD entry "Q2" (Json.str "N/A")),
     ("Q3", pyGetD entry "Q3" (Json.str "N/A"))])

/-- The accumulation loop of fetch_qualifying_results over the raw entries. -/
def qualFold : List Json → List (Json × List (String × Json)) →
    Except PyErr (List (Json × List (String × Json)))
  | [], acc => .ok acc
  | e :: es, acc =>
      eb (buildQualEntry e) fun kv => qualFold es (dictSet acc kv.1 kv.2)

/-- fetch_qualifying_results: on HTTP 200 unwrap MRData.RaceTable.Races
and, when the list is truthy and nonempty and its first element has a
QualifyingResults key, build the per-driver qualifying dict; the empty dict
otherwise. -/
def fetch_qualifying_results (resp : Response) :
    Except PyErr (List (Json × List (String × Json))) :=
  if resp.status == 200 then
    eb (resp.body.getKey "MRData") fun mrdata =>
    eb (mrdata.getKey "RaceTable") fun rt =>
    eb (rt.getKey "Races") fun data =>
    if pyTruthy data && decide (0 < pyLen data) then
      eb (data.getIdx 0) fun d0 =>
      if pyContains d0 "QualifyingResults" then
        eb (d0.getKey "QualifyingResults") fun qrs =>
        qualFold (pyIter qrs) []
      else .ok []
    else .ok []
  else .ok []

/-- fetch_finishing_status_for_season_driver: on HTTP 200 unwrap
MRData.StatusTable.Status; an empty Python list otherwise.  Standalone in
the source, unused by main. -/
def fetch_finishing_status_for_season_driver (resp : Response) : Except PyErr Json :=
  if resp.status == 200 then
    eb (resp.body.getKey "MRData") fun mrdata =>
    eb (mrdata.getKey "StatusTable") fun st =>
    st.getKey "Status"
  else .ok (jarr [])

/-- fetch_pitstops: on HTTP 200 unwrap MRData.RaceTable.Races and, when the
list is truthy and its first element has a PitStops key, return that value;
an empty Python list otherwise. -/
def fetch_pitstops (resp : Response) : Except PyErr Json :=
  if resp.status == 200 then
    eb (resp.body.getKey "MRData") fun mrdata =>
    eb (mrdata.getKey "RaceTable") fun rt =>
    eb (rt.getKey "Races") fun race_table =>
    if pyTruthy race_table then
      eb (race_table.getIdx 0) fun r0 =>
      if pyContains r0 "PitStops" then r0.getKey "PitStops"
      else .ok (jarr [])
    else .ok (jarr [])
  else .ok (jarr [])

/-- The driverId of one raw standings element, as the generator inside
next() reads it: s subscripted at Driver, then at driverId. -/
def stDriverId (s : Json) : Except PyErr Json :=
  eb (s.getKey "Driver") fun d => d.getKey "driverId"

/-- The next(...) call of main: scan the standings for the first element
whose Driver.driverId equals the given id, None as the default when no
element matches. -/
def findStanding : List Json → Json → Except PyErr (Option Json)
  | [], _ => .ok none
  | s :: rest, did =>
      eb (stDriverId s) fun i =>
      if jeq i did then .ok (some s) else findStanding rest did

/-- One pit stop rendered as in the f-string of main: the words Stop, at
Lap and Duration around the raw stop number, lap and duration values. -/
def formatStop (p : Json) : Except PyErr String :=
  eb (p.getKey "stop") fun st =>
  eb (p.getKey "lap") fun lap =>
  eb (p.getKey "duration") fun dur =>
  .ok ("Stop " ++ pyStr st ++ " @Lap " ++ pyStr lap ++
       " (Duration=" ++ pyStr dur ++ "s)")

/-- The pit-stop detail expression of main: the formatted stops joined by
a semicolon and space when the fetched value is truthy, the literal
No Pitstops otherwise. -/
def pitstopDetailExpr (pitstops : Json) : Except PyErr String :=
  if pyTruthy pitstops then
    eb (mapE formatStop (pyIter pitstops)) fun parts =>
    .ok (String.intercalate "; " parts)
  else .ok "No Pitstops"

/-- One fully joined row of the final table, with one field per key of the
dict main appends, in the same order. -/
structure OutputRow where
  season : Nat
  round : Nat
  raceName : Json
  circuitName : Json
  location : Json
  raceDate : Json
  driverName : String
  driverId : Json
  driverNationality : Json
  constructorName : Json
  qualifyingPosition : Json
  q1Time : Json
  q2Time : Json
  q3Time : Json
  startingGridPosition : Json
  finalPosition : Json
  finishingStatus : Json
  timeStatus : Json
  points : Json
  lapsCompleted : Json
  driverTotalPoints : Json
  pitStopCount : Nat
  pitStopDetails : String
deriving DecidableEq

/-- The body of the for-result loop of main for one ResultEntry: resolve
the driver, scan the standings, look up qualifying, fetch that drivers pit
stops (the one per-driver network call, returned as the FetchCall), and
assemble the row, evaluating every fallible subscript in the order the
Python line order and dict literal order evaluate them. -/
def processResult (o : Oracle) (season round : Nat) (standingsList : List Json)
    (qualifying_data : List (Json × List (String × Json)))
    (race_name circuit_name location race_date result : Json) :
    Except PyErr (OutputRow × FetchCall) :=
  eb (result.getKey "Driver") fun driver =>
  eb (result.getKey "Constructor") fun constructorJ =>
  eb (driver.getKey "driverId") fun driver_id =>
  eb (findStanding standingsList driver_id) fun driver_standing =>
  eb (fetch_pitstops (o.pitstops season round driver_id)) fun pitstops =>
  eb (pitstopDetailExpr pitstops) fun _pitstop_details0 =>
  eb (pitstopDetailExpr pitstops) fun pitstop_details =>
  eb (result.getKey "status") fun finishing_status =>
  eb (driver.getKey "givenName") fun givenName =>
  eb (driver.getKey "familyName") fun familyName =>
  eb (driver.getKey "nationality") fun nationality =>
  eb (constructorJ.getKey "name") fun constructor_name =>
  eb (result.getKey "grid") fun grid =>
  eb (result.getKey "position") fun final_position =>
  eb (if pyContains result "Time" then
        eb (result.getKey "Time") fun t => t.getKey "time"
      else .ok finishing_status) fun time_status =>
  eb (result.getKey "points") fun points =>
  eb (result.getKey "laps") fun laps =>
  eb (match driver_standing with
      | some st => if pyTruthy st then st.getKey "points" else .ok (Json.str "N/A")
      | none => .ok (Json.str "N/A")) fun driver_total_points =>
  .ok
    ({ season := season
       round := round
       raceName := race_name
       circuitName := circuit_name
       location := location
       raceDate := race_date
       driverName := pyStr givenName ++ " " ++ pyStr familyName
       driverId := driver_id
       driverNationality := nationality
       constructorName := constructor_name
       qualifyingPosition := qget (dictGet qualifying_data driver_id []) "position" (Json.str "N/A")
       q1Time := qget (dictGet qualifying_data driver_id []) "Q1" (Json.str "N/A")
       q2Time := qget (dictGet qualifying_data driver_id []) "Q2" (Json.str "N/A")
       q3Time := qget (dictGet qualifying_data driver_id []) "Q3" (Json.str "N/A")
       startingGridPosition := grid
       finalPosition := final_position
       finishingStatus := finishing_status
       timeStatus := time_status
       points := points
       lapsCompleted := laps
       driverTotalPoints := driver_total_points
       pitStopCount := pyLen pitstops
       pitStopDetails := pitstop_details },
     FetchCall.pitstops season round driver_id)

/-- One iteration of the round loop of main: fetch the race metadata and,
when a race is present, extract its fields, perform the three round-scoped
fetches and run the result loop.  Returns the rows appended for this round
together with every network call the round issued, in order. -/
def processRound (o : Oracle) (season round : Nat) :
    Except PyErr (List OutputRow × List FetchCall) :=
  eb (fetch_race_data (o.race season round)) fun raceOpt =>
  match raceOpt with
  | none => .ok ([], [FetchCall.race season round])
  | some race =>
    eb (race.getKey "raceName") fun race_name =>
    eb (race.getKey "Circuit") fun circuit =>
    eb (circuit.getKey "circuitName") fun circuit_name =>
    eb (race.getKey "Circuit") fun circuit2 =>
    eb (circuit2.getKey "Location") fun loc =>
    eb (loc.getKey "locality") fun location =>
    eb (race.getKey "date") fun race_date =>
    eb (fetch_race_results (o.raceResults season round)) fun race_resultsRaw =>
    eb (fetch_driver_standings (o.driverStandings season round)) fun standingsRaw =>
    eb (fetch_qualifying_results (o.qualifying season round)) fun qualifying_data =>
    eb (mapE (processResult o season round (pyIter standingsRaw) qualifying_data
        race_name circuit_name location race_date) (pyIter race_resultsRaw)) fun pairs =>
    .ok (pairs.map Prod.fst,
      [FetchCall.race season round, FetchCall.results season round,
       FetchCall.standings season round, FetchCall.qualifying season round]
        ++ pairs.map Prod.snd)

/-- Python range(a, b): the ascending integers from a up to but excluding b. -/
def pyRange (a b : Nat) : List Nat := List.range' a (b - a)

/-- The season range bounds of main. -/
def start_season : Nat := 2010

/-- The season range bounds of main. -/
def end_season : Nat := 2024

/-- The seasons main iterates: range(start_season, end_season + 1). -/
def seasonNumbers : List Nat := pyRange start_season (end_season + 1)

/-- The rounds main probes in every season: range(1, 30). -/
def roundNumbers : List Nat := pyRange 1 30

/-- The inner round loop of main for one season over a list of rounds,
concatenating the rows each round appends. -/
def runRounds (o : Oracle) (season : Nat) : List Nat → Except PyErr (List OutputRow)
  | [] => .ok []
  | r :: rs =>
      eb (processRound o season r) fun pr =>
      eb (runRounds o season rs) fun rest => .ok (pr.1 ++ rest)

/-- The outer season loop of main. -/
def runSeasons (o : Oracle) : List Nat → Except PyErr (List OutputRow)
  | [] => .ok []
  | s :: ss =>
      eb (runRounds o s roundNumbers) fun rows =>
      eb (runSeasons o ss) fun rest => .ok (rows ++ rest)

/-- The whole aggregation of main: every season, every probed round, all
rows in loop order (the table handed to the CSV export). -/
def runMain (o : Oracle) : Except PyErr (List OutputRow) :=
  runSeasons o seasonNumbers

/- A concrete mock dataset for season 2021 round 1 with two drivers, used
as the evaluation input of the witness theorems. -/

/-- Mock race metadata element for 2021 round 1. -/
def mockRace : Json :=
  jobj [("raceName", .str "Bahrain Grand Prix"),
        ("Circuit", jobj [("circuitName", .str "Bahrain International Circuit"),
                          ("Location", jobj [("locality", .str "Sakhir")])]),
        ("date", .str "2021-03-28")]

/-- Mock body for the race-metadata endpoint. -/
def mockRaceBody : Json :=
  jobj [("MRData", jobj [("RaceTable", jobj [("Races", jarr [mockRace])])])]

/-- Mock ResultEntry for the first driver (classified, with a finish time). -/
def mockRes1 : Json :=
  jobj [("Driver", jobj [("driverId", .str "hamilton"),
                         ("givenName", .str "Lewis"),
                         ("familyName", .str "Hamilton"),
                         ("nationality", .str "British")]),
        ("Constructor", jobj [("name", .str "Mercedes")]),
        ("grid", .str "2"),
        ("position", .str "1"),
        ("status", .str "Finished"),
        ("Time", jobj [("time", .str "1:32:03.897")]),
        ("points", .str "25"),
        ("laps", .str "56")]

/-- Mock ResultEntry for the second driver (retired, no Time key). -/
def mockRes2 : Json :=
  jobj [("Driver", jobj [("driverId", .str "verstappen"),
                         ("givenName", .str "Max"),
                         ("familyName", .str "Verstappen"),
                         ("nationality", .str "Dutch")]),
        ("Constructor", jobj [("name", .str "Red Bull")]),
        ("grid", .str "1"),
        ("position", .str "20"),
        ("status", .str "Retired"),
        ("points", .str "0"),
        ("laps", .str "43")]

/-- Mock body for the race-results endpoint. -/
def mockResultsBody : Json :=
  jobj [("MRData", jobj [("RaceTable", jobj [("Races",
    jarr [jobj [("Results", jarr [mockRes1, mockRes2])]])])])]

/-- The raw Results value of the mock results body. -/
def mockResultsVal : Json := jarr [mockRes1, mockRes2]

/-- Mock standings element for the first driver.  The second driver is
deliberately absent from the standings so that the sentinel path is
exercised. -/
def mockSt1 : Json :=
  jobj [("Driver", jobj [("driverId", .str "hamilton")]),
        ("points", .str "25")]

/-- Mock body for the driver-standings endpoint. -/
def mockStandingsBody : Json :=
  jobj [("MRData", jobj [("StandingsTable", jobj [("StandingsLists",
    jarr [jobj [("DriverStandings", jarr [mockSt1])]])])])]

/-- The standings list main iterates for the mock round. -/
def mockStandingsList : List Json := [mockSt1]

/-- Mock qualifying entry for the second driver (all three segments). -/
def mockQual1 : Json :=
  jobj [("Driver", jobj [("driverId", .str "verstappen")]),
        ("position", .str "1"),
        ("Q1", .str "1:30.499"),
        ("Q2", .str "1:30.318"),
        ("Q3", .str "1:28.997")]

/-- Mock qualifying entry for the first driver, with Q2 and Q3 absent in
the remote payload. -/
def mockQual2 : Json :=
  jobj [("Driver", jobj [("driverId", .str "hamilton")]),
        ("position", .str "2"),
        ("Q1", .str "1:30.617")]

/-- Mock body for the qualifying endpoint. -/
def mockQualifyingBody : Json :=
  jobj [("MRData", jobj [("RaceTable", jobj [("Races",
    jarr [jobj [("QualifyingResults", jarr [mockQual1, mockQual2])]])])])]

/-- The qualifying dict fetch_qualifying_results builds from the mock body. -/
def mockQualData : List (Json × List (String × Json)) :=
  [(.str "verstappen",
     [("position", .str "1"), ("Q1", .str "1:30.499"),
      ("Q2", .str "1:30.318"), ("Q3", .str "1:28.997")]),
   (.str "hamilton",
     [("position", .str "2"), ("Q1", .str "1:30.617"),
      ("Q2", .str "N/A"), ("Q3", .str "N/A")])]

/-- Mock body for the pit-stop endpoint of the first driver: the two stops
of the worked example (stop 1 at lap 15 taking 2.4 seconds, stop 2 at lap
40 taking 3.1 seconds). -/
def mockPitstopsHamBody : Json :=
  jobj [("MRData", jobj [("RaceTable", jobj [("Races",
    jarr [jobj [("PitStops",
      jarr [jobj [("stop", .str "1"), ("lap", .str "15"), ("duration", .str "2.4")],
            jobj [("stop", .str "2"), ("lap", .str "40"), ("duration", .str "3.1")]])]])])])]

/-- Mock body for the pit-stop endpoint of the second driver: a race
element without a PitStops key, so the fetcher degrades to the empty list. -/
def mockPitstopsVerBody : Json :=
  jobj [("MRData", jobj [("RaceTable", jobj [("Races", jarr [jobj []])])])]

/-- A response that is not found: transport failure for every request the
mock dataset leaves unspecified. -/
def notFound : Response := ⟨404, jobj []⟩

/-- The mock oracle: season 2021 round 1 carries the dataset above, every
other request fails at the transport. -/
def mockO : Oracle where
  race := fun s r => if s == 2021 && r == 1 then ⟨200, mockRaceBody⟩ else notFound
  driverStandings := fun s r => if s == 2021 && r == 1 then ⟨200, mockStandingsBody⟩ else notFound
  raceResults := fun s r => if s == 2021 && r == 1 then ⟨200, mockResultsBody⟩ else notFound
  qualifying := fun s r => if s == 2021 && r == 1 then ⟨200, mockQualifyingBody⟩ else notFound
  pitstops := fun s r d =>
    if s == 2021 && r == 1 && jeq d (.str "hamilton") then ⟨200, mockPitstopsHamBody⟩
    else if s == 2021 && r == 1 && jeq d (.str "verstappen") then ⟨200, mockPitstopsVerBody⟩
    else notFound

/-- The first row the mock round emits. -/
def mockRow1 : OutputRow where
  season := 2021
  round := 1
  raceName := .str "Bahrain Grand Prix"
  circuitName := .str "Bahrain International Circuit"
  location := .str "Sakhir"
  raceDate := .str "2021-03-28"
  driverName := "Lewis Hamilton"
  driverId := .str "hamilton"
  driverNationality := .str "British"
  constructorName := .str "Mercedes"
  qualifyingPosition := .str "2"
  q1Time := .str "1:30.617"
  q2Time := .str "N/A"
  q3Time := .str "N/A"
  startingGridPosition := .str "2"
  finalPosition := .str "1"
  finishingStatus := .str "Finished"
  timeStatus := .str "1:32:03.897"
  points := .str "25"
  lapsCompleted := .str "56"
  driverTotalPoints := .str "25"
  pitStopCount := 2
  pitStopDetails := "Stop 1 @Lap 15 (Duration=2.4s); Stop 2 @Lap 40 (Duration=3.1s)"

/-- The second row the mock round emits. -/
def mockRow2 : OutputRow where
  season := 2021
  round := 1
  raceName := .str "Bahrain Grand Prix"
  circuitName := .str "Bahrain International Circuit"
  location := .str "Sakhir"
  raceDate := .str "2021-03-28"
  driverName := "Max Verstappen"
  driverId := .str "verstappen"
  driverNationality := .str "Dutch"
  constructorName := .str "Red Bull"
  qualifyingPosition := .str "1"
  q1Time := .str "1:30.499"
  q2Time := .str "1:30.318"
  q3Time := .str "1:28.997"
  startingGridPosition := .str "1"
  finalPosition := .str "20"
  finishingStatus := .str "Retired"
  timeStatus := .str "Retired"
  points := .str "0"
  lapsCompleted := .str "43"
  driverTotalPoints := .str "N/A"
  pitStopCount := 0
  pitStopDetails := "No Pitstops"

/-- The calls the mock round issues, in order. -/
def mockCalls : List FetchCall :=
  [.race 2021 1, .results 2021 1, .standings 2021 1, .qualifying 2021 1,
   .pitstops 2021 1 (.str "hamilton"), .pitstops 2021 1 (.str "verstappen")]

/-- Evaluating the whole mock round. -/
theorem mock_run : processRound mockO 2021 1 = .ok ([mockRow1, mockRow2], mockCalls) := by
  decide

/-- Evaluating the result-loop body on the first mock result. -/
theorem mock_row1 :
    processResult mockO 2021 1 mockStandingsList mockQualData
      (.str "Bahrain Grand Prix") (.str "Bahrain International Circuit")
      (.str "Sakhir") (.str "2021-03-28") mockRes1 =
      .ok (mockRow1, .pitstops 2021 1 (.str "hamilton")) := by
  decide

/-- Evaluating the result-loop body on the second mock result. -/
theorem mock_row2 :
    processResult mockO 2021 1 mockStandingsList mockQualData
      (.str "Bahrain Grand Prix") (.str "Bahrain International Circuit")
      (.str "Sakhir") (.str "2021-03-28") mockRes2 =
      .ok (mockRow2, .pitstops 2021 1 (.str "verstappen")) := by
  decide

/-- If subscripting a JSON value at a string key succeeds, the value is a
nonempty dict and hence truthy in Python. -/
theorem getKey_ok_truthy {j : Json} {k : String} {v : Json}
    (h : Json.getKey j k = .ok v) : pyTruthy j = true := by
  cases j with
  | str s => simp [Json.getKey] at h
  | arr xs => simp [Json.getKey] at h
  | obj kvs =>
      have hne : kvs.toList ≠ [] := by
        intro he
        rw [Json.getKey, he] at h
        simp at h
      simp only [pyTruthy, pyLen, bne_iff_ne, ne_eq]
      exact fun hlen => hne (List.eq_nil_of_length_eq_zero hlen)

/-- When a standings scan succeeds but no element carries the sought
driver id, the scan returned the default None. -/
theorem findStanding_ok_none :
    ∀ {l : List Json} {did : Json} {r : Option Json},
      findStanding l did = .ok r →
      (∀ st ∈ l, stDriverId st ≠ .ok did) → r = none := by
  intro l
  induction l with
  | nil =>
      intro did r h _
      simp only [findStanding, Except.ok.injEq] at h
      exact h.symm
  | cons s rest ih =>
      intro did r h hnm
      simp only [findStanding, eb_ok] at h
      obtain ⟨i, hi, hif⟩ := h
      by_cases hj : jeq i did = true
      · exact absurd (by rw [hi, (jeq_eq i did).mp hj]) (hnm s (List.mem_cons_self s rest))
      · rw [Bool.not_eq_true] at hj
        rw [hj] at hif
        simp only [Bool.false_eq_true, if_false] at hif
        exact ih hif (fun st hst => hnm st (List.mem_cons_of_mem s hst))

/-- When a standings scan succeeds, the element it returns is the first one
in sequence order whose driver id matches. -/
theorem findStanding_first :
    ∀ {pre : List Json} {st : Json} {rest : List Json} {did : Json} {r : Option Json},
      findStanding (pre ++ st :: rest) did = .ok r →
      stDriverId st = .ok did →
      (∀ p ∈ pre, stDriverId p ≠ .ok did) → r = some st := by
  intro pre
  induction pre with
  | nil =>
      intro st rest did r h hst _
      simp only [List.nil_append, findStanding, eb_ok] at h
      obtain ⟨i, hi, hif⟩ := h
      rw [hst] at hi
      have hdi : did = i := by injection hi
      rw [← hdi, (jeq_eq did did).mpr rfl] at hif
      simp only [if_true] at hif
      exact (Except.ok.inj hif).symm
  | cons p pre ih =>
      intro st rest did r h hst hpre
      simp only [List.cons_append, findStanding, eb_ok] at h
      obtain ⟨i, hi, hif⟩ := h
      by_cases hj : jeq i did = true
      · exact absurd (by rw [hi, (jeq_eq i did).mp hj])
          (hpre p (List.mem_cons_self p pre))
      · rw [Bool.not_eq_true] at hj
        rw [hj] at hif
        simp only [Bool.false_eq_true, if_false] at hif
        exact ih hif hst (fun q hq => hpre q (List.mem_cons_of_mem p hq))

/-- The per-driver dict buildQualEntry stores always has exactly the four
keys position, Q1, Q2, Q3, in that order. -/
theorem buildQualEntry_val {entry : Json} {kv : Json × List (String × Json)}
    (h : buildQualEntry entry = .ok kv) :
    ∃ pos a b c, kv.2 = [("position", pos), ("Q1", a), ("Q2", b), ("Q3", c)] := by
  simp only [buildQualEntry, eb_ok] at h
  obtain ⟨d, _, i, _, p, _, hfin⟩ := h
  have h2 := Except.ok.inj hfin
  rw [← h2]
  exact ⟨p, pyGetD entry "Q1" (Json.str "N/A"), pyGetD entry "Q2" (Json.str "N/A"),
    pyGetD entry "Q3" (Json.str "N/A"), rfl⟩

/-- Members of a dict after a Python dict assignment either were already
present or carry the assigned value. -/
theorem dictSet_mem {d : List (Json × List (String × Json))} {k : Json}
    {v : List (String × Json)} {kv : Json × List (String × Json)}
    (h : kv ∈ dictSet d k v) : kv ∈ d ∨ kv.2 = v := by
  unfold dictSet at h
  split at h
  · obtain ⟨kv0, hkv0, heq⟩ := List.mem_map.mp h
    by_cases hj : jeq kv0.1 k = true
    · rw [if_pos hj] at heq
      right
      rw [← heq]
    · rw [Bool.not_eq_true] at hj
      rw [hj] at heq
      simp only [Bool.false_eq_true, if_false] at heq
      left
      rw [← heq]
      exact hkv0
  · rcases List.mem_append.mp h with h1 | h2
    · left; exact h1
    · right
      simp only [List.mem_singleton] at h2
      rw [h2]

/-- Every value in a dict produced by the qualifying accumulation loop has
all three segment keys present, provided every value already accumulated
does. -/
theorem qualFold_val_keys :
    ∀ {es : List Json} {acc qd : List (Json × List (String × Json))},
      qualFold es acc = .ok qd →
      (∀ kv ∈ acc, (qlook kv.2 "Q1").isSome ∧ (qlook kv.2 "Q2").isSome ∧ (qlook kv.2 "Q3").isSome) →
      ∀ kv ∈ qd, (qlook kv.2 "Q1").isSome ∧ (qlook kv.2 "Q2").isSome ∧ (qlook kv.2 "Q3").isSome := by
  intro es
  induction es with
  | nil =>
      intro acc qd h hacc
      simp only [qualFold, Except.ok.injEq] at h
      rw [← h]
      exact hacc
  | cons e es ih =>
      intro acc qd h hacc
      simp only [qualFold, eb_ok] at h
      obtain ⟨kv0, hkv0, hrest⟩ := h
      refine ih hrest (fun kv hkv => ?_)
      rcases dictSet_mem hkv with hin | hval
      · exact hacc kv hin
      · obtain ⟨pos, a, b, c, hv⟩ := buildQualEntry_val hkv0
        rw [hval, hv]
        exact ⟨rfl, rfl, rfl⟩

/-- Python dict.get returns the default when the in operator reports the
key absent on a dict. -/
theorem pyGetD_of_not_contains {kvs : JsonPairs} {q : String} {d : Json}
    (h : pyContains (.obj kvs) q = false) : pyGetD (.obj kvs) q d = d := by
  simp only [pyContains] at h
  simp only [pyGetD]
  cases hf : kvs.toList.find? (fun kv => kv.1 == q) with
  | none => rfl
  | some kv =>
      have hp := List.find?_some hf
      have hmem := List.mem_of_find?_eq_some hf
      rw [List.any_eq_false] at h
      exact absurd hp (h kv hmem)

/-- C1: for every (season, round) where the race-metadata fetch returns
absent, the round aggregator emits exactly zero rows and performs no
standings, results, qualifying or pit-stop fetches for that round (the
trace holds only the race call), and the enclosing loop proceeds to the
next round with the collection unchanged. -/
theorem round_absent_emits_nothing (o : Oracle) (season round : Nat)
    (h : fetch_race_data (o.race season round) = .ok none) :
    processRound o season round = .ok ([], [FetchCall.race season round]) ∧
    ∀ rs : List Nat, runRounds o season (round :: rs) = runRounds o season rs := by
  have h1 : processRound o season round = .ok ([], [FetchCall.race season round]) := by
    unfold processRound
    rw [h]
    rfl
  refine ⟨h1, fun rs => ?_⟩
  simp only [runRounds, h1, eb]
  cases hr : runRounds o season rs <;> simp [eb]

/-- Witness for round_absent_emits_nothing: round 2 of season 2021 of the
mock oracle fails at the transport, so the race fetch is absent and the
round contributes nothing. -/
theorem round_absent_emits_nothing_witness :
    processRound mockO 2021 2 = .ok ([], [FetchCall.race 2021 2]) :=
  (round_absent_emits_nothing mockO 2021 2 (by decide)).1

/-- C4 (probe of the failing input): the season loop is the ascending
inclusive range 2010 to 2024, and the round loop is range(1, 30), which
probes rounds 1 to 29 in ascending order; round 30 is never probed, even
though the claim and the scripts own comment state a ceiling of 30 rounds. -/
theorem enumerator_probes_rounds_1_to_29 :
    seasonNumbers = List.range' 2010 15 ∧ List.Pairwise (· < ·) seasonNumbers ∧
    roundNumbers = List.range' 1 29 ∧ List.Pairwise (· < ·) roundNumbers ∧
    roundNumbers.length = 29 ∧ 1 ∈ roundNumbers ∧ 29 ∈ roundNumbers ∧
    ¬ 30 ∈ roundNumbers := by
  refine ⟨by decide, List.Ico.pairwise_lt 2010 2025, by decide,
    List.Ico.pairwise_lt 1 30, by decide, by decide, by decide, by decide⟩

/-- C9: aggregation is deterministic and depends only on the fetched data:
two oracles that agree on the responses for a rounds race, results,
standings, qualifying and per-driver pit-stop requests make the round
aggregator produce identical rows and identical call traces. -/
theorem aggregation_deterministic (o1 o2 : Oracle) (season round : Nat)
    (hr : o1.race season round = o2.race season round)
    (hres : o1.raceResults season round = o2.raceResults season round)
    (hst : o1.driverStandings season round = o2.driverStandings season round)
    (hq : o1.qualifying season round = o2.qualifying season round)
    (hp : ∀ d, o1.pitstops season round d = o2.pitstops season round d) :
    processRound o1 season round = processRound o2 season round := by
  have hfun : processResult o1 season round = processResult o2 season round := by
    funext stl qd rn cn lo rd result
    unfold processResult
    simp only [hp]
  unfold processRound
  rw [hr, hres, hst, hq, hfun]

/-- Witness for aggregation_deterministic: running the mock round twice
gives the same output. -/
theorem aggregation_deterministic_witness :
    processRound mockO 2021 1 = processRound mockO 2021 1 :=
  aggregation_deterministic mockO mockO 2021 1 rfl rfl rfl rfl (fun _ => rfl)

/-- A 200 results response whose only race element lacks the Results key. -/
def noResultsResp : Response :=
  ⟨200, jobj [("MRData", jobj [("RaceTable",
    jobj [("Races", jarr [jobj [("raceName", .str "X")]])])])]⟩

/-- An oracle with sound race metadata whose results payload lacks the
Results key inside its race element. -/
def badO : Oracle where
  race := fun _ _ => ⟨200, mockRaceBody⟩
  driverStandings := fun _ _ => notFound
  raceResults := fun _ _ => noResultsResp
  qualifying := fun _ _ => notFound
  pitstops := fun _ _ _ => notFound

/-- C3 (counterexample): a structurally-absent nested field does not always
degrade to the empty value for that fetcher - on a 200 results payload
whose race element lacks the Results key, fetch_race_results raises
KeyError and the exception aborts the whole round. -/
theorem absent_field_aborts_round :
    fetch_race_results noResultsResp = .error (PyErr.keyError "Results") ∧
    processRound badO 2021 1 = .error (PyErr.keyError "Results") := by
  decide

/-- C3 (amended): a non-success transport response degrades to the empty or
absent return value for that fetcher alone, whatever the body holds - None
for the race fetch, an empty list for standings, results, pit stops and the
season-status fetcher, an empty dict for qualifying. -/
theorem transport_failure_degrades (resp : Response) (h : resp.status ≠ 200) :
    fetch_race_data resp = .ok none ∧
    fetch_driver_standings resp = .ok (jarr []) ∧
    fetch_race_results resp = .ok (jarr []) ∧
    fetch_qualifying_results resp = .ok [] ∧
    fetch_pitstops resp = .ok (jarr []) ∧
    fetch_finishing_status_for_season_driver resp = .ok (jarr []) := by
  have hb : (resp.status == 200) = false := beq_eq_false_iff_ne.mpr h
  refine ⟨?_, ?_, ?_, ?_, ?_, ?_⟩
  · unfold fetch_race_data; rw [hb]; simp
  · unfold fetch_driver_standings; rw [hb]; simp
  · unfold fetch_race_results; rw [hb]; simp
  · unfold fetch_qualifying_results; rw [hb]; simp
  · unfold fetch_pitstops; rw [hb]; simp
  · unfold fetch_finishing_status_for_season_driver; rw [hb]; simp

/-- Witness for transport_failure_degrades at a concrete 404 response. -/
theorem transport_failure_degrades_witness :
    fetch_race_data notFound = .ok none :=
  (transport_failure_degrades notFound (by decide)).1

/-- C10: when the race-metadata fetch is an HTTP 200 whose unwrapped race
list is nonempty, fetch_race_data returns exactly the first element; the
remaining races do not influence the returned record. -/
theorem race_data_first_element (resp : Response) (x : Json) (xs : JsonList)
    (h200 : resp.status = 200)
    (hr : eb (resp.body.getKey "MRData") (fun m =>
            eb (m.getKey "RaceTable") (fun rt => rt.getKey "Races")) =
          .ok (Json.arr (.cons x xs))) :
    fetch_race_data resp = .ok (some x) := by
  obtain ⟨m, hm, h2⟩ := eb_ok.mp hr
  obtain ⟨rt, hrt, hraces⟩ := eb_ok.mp h2
  unfold fetch_race_data
  rw [h200]
  simp only [beq_self_eq_true, if_true, hm, eb, hrt, hraces]
  rfl

/-- Witness for race_data_first_element at the mock race-metadata response:
the single race element is returned. -/
theorem race_data_first_element_witness :
    fetch_race_data ⟨200, mockRaceBody⟩ = .ok (some mockRace) :=
  race_data_first_element ⟨200, mockRaceBody⟩ mockRace .nil rfl (by decide)

/-- If subscripting a JSON value at a string key succeeds, the value is a
dict. -/
theorem getKey_ok_obj {j : Json} {k : String} {v : Json}
    (h : Json.getKey j k = .ok v) : ∃ kvs, j = Json.obj kvs := by
  cases j with
  | obj kvs => exact ⟨kvs, rfl⟩
  | str s => simp [Json.getKey] at h
  | arr xs => simp [Json.getKey] at h

/-- C7: for every emitted row, the Time/Status field equals the structured
finish time when the ResultEntry carries a Time object, and otherwise it
equals the finishing-status text verbatim. -/
theorem time_status_time_or_status (o : Oracle) (season round : Nat)
    (standingsList : List Json) (qd : List (Json × List (String × Json)))
    (rn cn lo rd result : Json) (row : OutputRow) (call : FetchCall)
    (hrow : processResult o season round standingsList qd rn cn lo rd result =
      .ok (row, call)) :
    (pyContains result "Time" = true →
      eb (result.getKey "Time") (fun t => t.getKey "time") = .ok row.timeStatus) ∧
    (pyContains result "Time" = false →
      result.getKey "status" = .ok row.timeStatus) := by
  simp only [processResult, eb_ok, Except.ok.injEq, Prod.mk.injEq] at hrow
  obtain ⟨driver, hdriver, constructorJ, hconsJ, did, hdid, ds, hds, ps, hps,
    det0, hdet0, det, hdet, fs, hfs, gn, hgn, fam, hfam, natl, hnatl,
    cname, hcname, grid, hgrid, pos, hpos, ts, hts, pts, hpts, laps, hlaps,
    dtp, hdtp, hrow_eq, hcall_eq⟩ := hrow
  subst hrow_eq
  constructor
  · intro hc
    rw [if_pos hc] at hts
    exact hts
  · intro hc
    have hcne : ¬ pyContains result "Time" = true := by
      rw [hc]; exact Bool.false_ne_true
    rw [if_neg hcne] at hts
    rw [hfs]
    exact hts

/-- Witness for time_status_time_or_status: the retired mock driver has no
Time object, and the emitted Time/Status equals the status text Retired. -/
theorem time_status_time_or_status_witness :
    mockRow2.timeStatus = Json.str "Retired" := by
  have h := (time_status_time_or_status mockO 2021 1 mockStandingsList mockQualData
    (.str "Bahrain Grand Prix") (.str "Bahrain International Circuit")
    (.str "Sakhir") (.str "2021-03-28") mockRes2 mockRow2
    (.pitstops 2021 1 (.str "verstappen")) mock_row2).2 (by decide)
  have h2 : Json.getKey mockRes2 "status" = .ok (Json.str "Retired") := by decide
  rw [h2] at h
  exact (Except.ok.inj h).symm

/-- C6: for every emitted row there is a single fetched pit-stop sequence
for that rounds driver - the one per-driver call the row issued - from
which both fields derive: the count is its Python length, and the details
are the No Pitstops literal when it is empty and otherwise the formatted
stops joined with a semicolon and space. -/
theorem pitstop_fields_single_fetch (o : Oracle) (season round : Nat)
    (standingsList : List Json) (qd : List (Json × List (String × Json)))
    (rn cn lo rd result : Json) (row : OutputRow) (call : FetchCall)
    (hrow : processResult o season round standingsList qd rn cn lo rd result =
      .ok (row, call)) :
    ∃ did psRaw,
      eb (result.getKey "Driver") (fun d => d.getKey "driverId") = .ok did ∧
      fetch_pitstops (o.pitstops season round did) = .ok psRaw ∧
      call = FetchCall.pitstops season round did ∧
      row.pitStopCount = pyLen psRaw ∧
      pitstopDetailExpr psRaw = .ok row.pitStopDetails ∧
      (pyTruthy psRaw = false → row.pitStopDetails = "No Pitstops") ∧
      (∀ parts, mapE formatStop (pyIter psRaw) = .ok parts →
        pyTruthy psRaw = true → row.pitStopDetails = String.intercalate "; " parts) := by
  simp only [processResult, eb_ok, Except.ok.injEq, Prod.mk.injEq] at hrow
  obtain ⟨driver, hdriver, constructorJ, hconsJ, did, hdid, ds, hds, ps, hps,
    det0, hdet0, det, hdet, fs, hfs, gn, hgn, fam, hfam, natl, hnatl,
    cname, hcname, grid, hgrid, pos, hpos, ts, hts, pts, hpts, laps, hlaps,
    dtp, hdtp, hrow_eq, hcall_eq⟩ := hrow
  subst hrow_eq
  refine ⟨did, ps, eb_ok.mpr ⟨driver, hdriver, hdid⟩, hps, hcall_eq.symm, rfl, hdet, ?_, ?_⟩
  · intro hfalse
    unfold pitstopDetailExpr at hdet
    have hcne : ¬ pyTruthy ps = true := by
      rw [hfalse]; exact Bool.false_ne_true
    rw [if_neg hcne] at hdet
    exact (Except.ok.inj hdet).symm
  · intro parts hparts htrue
    unfold pitstopDetailExpr at hdet
    rw [if_pos htrue] at hdet
    obtain ⟨parts0, hp0, hint⟩ := eb_ok.mp hdet
    rw [hparts] at hp0
    have : parts = parts0 := Except.ok.inj hp0
    rw [this]
    exact (Except.ok.inj hint).symm

/-- Witness for pitstop_fields_single_fetch: the first mock driver made the
two stops of the worked example, so the count is 2 and the details are the
two formatted stops joined; the second mock driver made none, so the count
is 0 and the details are the No Pitstops literal. -/
theorem pitstop_fields_single_fetch_witness :
    mockRow1.pitStopCount = 2 ∧
    mockRow1.pitStopDetails =
      "Stop 1 @Lap 15 (Duration=2.4s); Stop 2 @Lap 40 (Duration=3.1s)" ∧
    mockRow2.pitStopCount = 0 ∧ mockRow2.pitStopDetails = "No Pitstops" := by
  obtain ⟨did, psRaw, hdid, hps, hcall, hcount, hdet, hempty, hjoin⟩ :=
    pitstop_fields_single_fetch mockO 2021 1 mockStandingsList mockQualData
      (.str "Bahrain Grand Prix") (.str "Bahrain International Circuit")
      (.str "Sakhir") (.str "2021-03-28") mockRes1 mockRow1
      (.pitstops 2021 1 (.str "hamilton")) mock_row1
  obtain ⟨did2, psRaw2, hdid2, hps2, hcall2, hcount2, hdet2, hempty2, hjoin2⟩ :=
    pitstop_fields_single_fetch mockO 2021 1 mockStandingsList mockQualData
      (.str "Bahrain Grand Prix") (.str "Bahrain International Circuit")
      (.str "Sakhir") (.str "2021-03-28") mockRes2 mockRow2
      (.pitstops 2021 1 (.str "verstappen")) mock_row2
  have e1 : did = Json.str "hamilton" := by
    have hx : eb (Json.getKey mockRes1 "Driver") (fun d => d.getKey "driverId") =
        .ok (Json.str "hamilton") := by decide
    rw [hx] at hdid
    exact (Except.ok.inj hdid).symm
  subst e1
  have e2 : did2 = Json.str "verstappen" := by
    have hx : eb (Json.getKey mockRes2 "Driver") (fun d => d.getKey "driverId") =
        .ok (Json.str "verstappen") := by decide
    rw [hx] at hdid2
    exact (Except.ok.inj hdid2).symm
  subst e2
  have hv1 : psRaw = jarr
      [jobj [("stop", .str "1"), ("lap", .str "15"), ("duration", .str "2.4")],
       jobj [("stop", .str "2"), ("lap", .str "40"), ("duration", .str "3.1")]] := by
    have hx : fetch_pitstops (mockO.pitstops 2021 1 (Json.str "hamilton")) = .ok (jarr
      [jobj [("stop", .str "1"), ("lap", .str "15"), ("duration", .str "2.4")],
       jobj [("stop", .str "2"), ("lap", .str "40"), ("duration", .str "3.1")]]) := by decide
    rw [hx] at hps
    exact (Except.ok.inj hps).symm
  have hv2 : psRaw2 = jarr [] := by
    have hx : fetch_pitstops (mockO.pitstops 2021 1 (Json.str "verstappen")) =
        .ok (jarr []) := by decide
    rw [hx] at hps2
    exact (Except.ok.inj hps2).symm
  refine ⟨by rw [hcount, hv1]; decide, ?_, by rw [hcount2, hv2]; decide,
    hempty2 (by rw [hv2]; decide)⟩
  refine hjoin ["Stop 1 @Lap 15 (Duration=2.4s)", "Stop 2 @Lap 40 (Duration=3.1s)"]
    ?_ (by rw [hv1]; decide)
  rw [hv1]
  decide

/-- C5: for every emitted row, the standings lookup never raises (it
returned a value), a driver matching no standings entry gets exactly the
string N/A as Driver Total Points, and a driver whose first match in
sequence order is some standing gets that standings points value. -/
theorem standings_lookup_sentinel (o : Oracle) (season round : Nat)
    (standingsList : List Json) (qd : List (Json × List (String × Json)))
    (rn cn lo rd result : Json) (row : OutputRow) (call : FetchCall)
    (hrow : processResult o season round standingsList qd rn cn lo rd result =
      .ok (row, call)) :
    ∃ did,
      eb (result.getKey "Driver") (fun d => d.getKey "driverId") = .ok did ∧
      (∃ v, findStanding standingsList did = .ok v) ∧
      ((∀ st ∈ standingsList, stDriverId st ≠ .ok did) →
        row.driverTotalPoints = Json.str "N/A" ∧ Json.str "N/A" ≠ Json.str "") ∧
      (∀ pre st rest, standingsList = pre ++ st :: rest →
        stDriverId st = .ok did →
        (∀ p ∈ pre, stDriverId p ≠ .ok did) →
        st.getKey "points" = .ok row.driverTotalPoints) := by
  simp only [processResult, eb_ok, Except.ok.injEq, Prod.mk.injEq] at hrow
  obtain ⟨driver, hdriver, constructorJ, hconsJ, did, hdid, ds, hds, ps, hps,
    det0, hdet0, det, hdet, fs, hfs, gn, hgn, fam, hfam, natl, hnatl,
    cname, hcname, grid, hgrid, pos, hpos, ts, hts, pts, hpts, laps, hlaps,
    dtp, hdtp, hrow_eq, hcall_eq⟩ := hrow
  subst hrow_eq
  refine ⟨did, eb_ok.mpr ⟨driver, hdriver, hdid⟩, ⟨ds, hds⟩, ?_, ?_⟩
  · intro hnm
    have hnone : ds = none := findStanding_ok_none hds hnm
    rw [hnone] at hdtp
    have hdtp2 : Except.ok (Json.str "N/A") = Except.ok dtp := hdtp
    exact ⟨(Except.ok.inj hdtp2).symm, by decide⟩
  · intro pre st rest hsplit hst hpre
    rw [hsplit] at hds
    have hsome : ds = some st := findStanding_first hds hst hpre
    rw [hsome] at hdtp
    have hdtp2 : (if pyTruthy st = true then st.getKey "points"
        else Except.ok (Json.str "N/A")) = Except.ok dtp := hdtp
    have htr : pyTruthy st = true := by
      obtain ⟨d, hd, _⟩ := eb_ok.mp hst
      exact getKey_ok_truthy hd
    rw [if_pos htr] at hdtp2
    exact hdtp2

/-- Witness for standings_lookup_sentinel: the second mock driver is absent
from the mock standings, so Driver Total Points is the exact string N/A;
the first mock driver matches the first standings element, whose points are
25. -/
theorem standings_lookup_sentinel_witness :
    mockRow2.driverTotalPoints = Json.str "N/A" ∧
    mockRow1.driverTotalPoints = Json.str "25" := by
  obtain ⟨did, hdid, hnr, hnm, hfm⟩ :=
    standings_lookup_sentinel mockO 2021 1 mockStandingsList mockQualData
      (.str "Bahrain Grand Prix") (.str "Bahrain International Circuit")
      (.str "Sakhir") (.str "2021-03-28") mockRes2 mockRow2
      (.pitstops 2021 1 (.str "verstappen")) mock_row2
  obtain ⟨did1, hdid1, hnr1, hnm1, hfm1⟩ :=
    standings_lookup_sentinel mockO 2021 1 mockStandingsList mockQualData
      (.str "Bahrain Grand Prix") (.str "Bahrain International Circuit")
      (.str "Sakhir") (.str "2021-03-28") mockRes1 mockRow1
      (.pitstops 2021 1 (.str "hamilton")) mock_row1
  have e2 : did = Json.str "verstappen" := by
    have hx : eb (Json.getKey mockRes2 "Driver") (fun d => d.getKey "driverId") =
        .ok (Json.str "verstappen") := by decide
    rw [hx] at hdid
    exact (Except.ok.inj hdid).symm
  subst e2
  have e1 : did1 = Json.str "hamilton" := by
    have hx : eb (Json.getKey mockRes1 "Driver") (fun d => d.getKey "driverId") =
        .ok (Json.str "hamilton") := by decide
    rw [hx] at hdid1
    exact (Except.ok.inj hdid1).symm
  subst e1
  constructor
  · exact (hnm (by decide)).1
  · have hpts := hfm1 [] mockSt1 [] rfl (by decide) (by intro p hp; simp at hp)
    have hx : Json.getKey mockSt1 "points" = .ok (Json.str "25") := by decide
    rw [hx] at hpts
    exact (Except.ok.inj hpts).symm

/-- C2: when a rounds race metadata is present and its race-results fetch
returns a value with N entries, the round emits exactly N rows, one per
ResultEntry and in the same relative order: row i is the output of the
result-loop body on entry i. -/
theorem rows_one_per_result_in_order (o : Oracle) (season round : Nat)
    (rows : List OutputRow) (calls : List FetchCall)
    (hrun : processRound o season round = .ok (rows, calls))
    (race : Json) (hrace : fetch_race_data (o.race season round) = .ok (some race))
    (res : Json) (hres : fetch_race_results (o.raceResults season round) = .ok res) :
    rows.length = (pyIter res).length ∧
    ∃ race_name circuit circuit_name loc loct race_date standingsRaw qdata,
      race.getKey "raceName" = .ok race_name ∧
      race.getKey "Circuit" = .ok circuit ∧
      circuit.getKey "circuitName" = .ok circuit_name ∧
      circuit.getKey "Location" = .ok loc ∧
      loc.getKey "locality" = .ok loct ∧
      race.getKey "date" = .ok race_date ∧
      fetch_driver_standings (o.driverStandings season round) = .ok standingsRaw ∧
      fetch_qualifying_results (o.qualifying season round) = .ok qdata ∧
      ∀ (i : Nat) (h1 : i < (pyIter res).length) (h2 : i < rows.length),
        ∃ c, processResult o season round (pyIter standingsRaw) qdata race_name
          circuit_name loct race_date ((pyIter res).get ⟨i, h1⟩) =
          .ok (rows.get ⟨i, h2⟩, c) := by
  unfold processRound at hrun
  rw [hrace] at hrun
  simp only [eb_ok, Except.ok.injEq, Prod.mk.injEq, exists_eq_left,
    exists_eq_left'] at hrun
  obtain ⟨rn, hrn, c1, hc1, cn, hcn, c2, hc2, lo, hlo, loct, hloct, rd, hrd,
    resRaw, hresRaw, stRaw, hstRaw, qdata, hqdata, pairs, hpairs,
    hrows_eq, hcalls_eq⟩ := hrun
  rw [hres] at hresRaw
  have hrr : res = resRaw := Except.ok.inj hresRaw
  subst hrr
  rw [hc1] at hc2
  have hcc : c1 = c2 := Except.ok.inj hc2
  subst hcc
  subst hrows_eq
  have hplen : pairs.length = (pyIter res).length := mapE_ok_length _ hpairs
  constructor
  · simp [hplen]
  refine ⟨rn, c1, cn, lo, loct, rd, stRaw, qdata,
    hrn, hc1, hcn, hlo, hloct, hrd, hstRaw, hqdata, ?_⟩
  intro i h1 h2
  have hip : i < pairs.length := by rw [hplen]; exact h1
  refine ⟨(pairs.get ⟨i, hip⟩).2, ?_⟩
  have hri := mapE_ok_get _ hpairs i h1 hip
  have hmap : (pairs.map Prod.fst).get ⟨i, h2⟩ = (pairs.get ⟨i, hip⟩).1 := by
    simp [List.get_eq_getElem, List.getElem_map]
  rw [hmap]
  exact hri

/-- Witness for rows_one_per_result_in_order: the mock round has two
ResultEntry records and emits exactly two rows. -/
theorem rows_one_per_result_in_order_witness :
    ([mockRow1, mockRow2] : List OutputRow).length = (pyIter mockResultsVal).length :=
  (rows_one_per_result_in_order mockO 2021 1 [mockRow1, mockRow2] mockCalls
    mock_run mockRace (by decide) mockResultsVal (by decide)).1

/-- C8: every driver in the map fetch_qualifying_results returns carries
all three keys Q1, Q2 and Q3, and any of the three that is missing in the
raw remote entry is stored as the exact string N/A rather than the key
being omitted. -/
theorem qualifying_keys_defaulted (resp : Response)
    (qd : List (Json × List (String × Json)))
    (h : fetch_qualifying_results resp = .ok qd) :
    (∀ kv ∈ qd, (qlook kv.2 "Q1").isSome ∧ (qlook kv.2 "Q2").isSome ∧
      (qlook kv.2 "Q3").isSome) ∧
    (∀ entry kv, buildQualEntry entry = .ok kv →
      (pyContains entry "Q1" = false → qlook kv.2 "Q1" = some (Json.str "N/A")) ∧
      (pyContains entry "Q2" = false → qlook kv.2 "Q2" = some (Json.str "N/A")) ∧
      (pyContains entry "Q3" = false → qlook kv.2 "Q3" = some (Json.str "N/A"))) := by
  constructor
  · unfold fetch_qualifying_results at h
    by_cases hs : (resp.status == 200) = true
    · rw [if_pos hs] at h
      simp only [eb_ok] at h
      obtain ⟨m, _, rt, _, data, _, hif⟩ := h
      split at hif
      · simp only [eb_ok] at hif
        obtain ⟨d0, _, hif2⟩ := hif
        split at hif2
        · simp only [eb_ok] at hif2
          obtain ⟨qrs, _, hq⟩ := hif2
          exact qualFold_val_keys hq
            (fun kv hkv => absurd hkv (List.not_mem_nil kv))
        · have hqd := Except.ok.inj hif2
          intro kv hkv
          rw [← hqd] at hkv
          exact absurd hkv (List.not_mem_nil kv)
      · have hqd := Except.ok.inj hif
        intro kv hkv
        rw [← hqd] at hkv
        exact absurd hkv (List.not_mem_nil kv)
    · rw [if_neg hs] at h
      have hqd := Except.ok.inj h
      intro kv hkv
      rw [← hqd] at hkv
      exact absurd hkv (List.not_mem_nil kv)
  · intro entry kv hkv
    simp only [buildQualEntry, eb_ok] at hkv
    obtain ⟨d, hd, i, hi, p, hp, hkv_eq⟩ := hkv
    have hkv2 := Except.ok.inj hkv_eq
    subst hkv2
    obtain ⟨kvs, hobj⟩ := getKey_ok_obj hd
    subst hobj
    refine ⟨fun hq1 => ?_, fun hq2 => ?_, fun hq3 => ?_⟩
    · show some (pyGetD (Json.obj kvs) "Q1" (Json.str "N/A")) = some (Json.str "N/A")
      rw [pyGetD_of_not_contains hq1]
    · show some (pyGetD (Json.obj kvs) "Q2" (Json.str "N/A")) = some (Json.str "N/A")
      rw [pyGetD_of_not_contains hq2]
    · show some (pyGetD (Json.obj kvs) "Q3" (Json.str "N/A")) = some (Json.str "N/A")
      rw [pyGetD_of_not_contains hq3]

/-- The per-driver dict stored for the first mock driver, whose raw entry
lacks Q2 and Q3. -/
def mockHamQual : List (String × Json) :=
  [("position", .str "2"), ("Q1", .str "1:30.617"),
   ("Q2", .str "N/A"), ("Q3", .str "N/A")]

/-- Witness for qualifying_keys_defaulted: the first mock drivers raw
qualifying entry lacks Q2, yet the stored dict has the key Q2 and its value
is the string N/A. -/
theorem qualifying_keys_defaulted_witness :
    (qlook mockHamQual "Q2").isSome ∧
    qlook mockHamQual "Q2" = some (Json.str "N/A") := by
  obtain ⟨hall, hdef⟩ := qualifying_keys_defaulted ⟨200, mockQualifyingBody⟩
    mockQualData (by decide)
  constructor
  · exact (hall (Json.str "hamilton", mockHamQual) (by decide)).2.1
  · exact (hdef mockQual2 (Json.str "hamilton", mockHamQual) (by decide)).2.1
      (by decide)
